import Mathlib

/-!
# Shallow embedding of the virtual glasses try-on pipeline

This file embeds, in Lean 4, the parts of the repository that the claims
C1–C10 are about:

* `face-tracker.ts` — `FaceTracker.detect` and `FaceTracker.computePoses`
  (landmark-to-pose conversion, mirrored-X cover mapping, eye distance,
  roll, mirrored rotation extraction);
* `glasses-renderer.ts` — the transition state machine (`selectModel`,
  `finishTransition`, the transition section of `render`), the clip-plane
  update at the top of `render`, and `updateParams`/`applyBaseRotation`;
* `face-occluder.ts` — the cached triangulation builder (`buildTriangles`,
  `orderedLoop`) and the yaw / front-cutoff computation plus the
  `allLandmarks` consumption of `FaceOccluder.update`.

Conventions of the embedding:

* JS numbers are modelled by `ℝ` where irrational functions (`Math.sqrt`,
  `Math.atan2`) occur, and by `ℚ` where every operation is rational
  (renderer state machine) so that witnesses evaluate by `decide`.
* A JS array of landmarks is modelled by `Face`: a total access function
  plus a length (array reads in the program are always in bounds for
  well-formed MediaPipe results).
* An absent object property (`undefined`) is modelled by `Option` with
  `none`.
* THREE.js Euler conversion (`setFromRotationMatrix` followed by
  `applyEuler`) is modelled by the action of the underlying rotation
  matrix itself, which is its mathematical semantics.
-/

/-- A normalized MediaPipe landmark `{x, y, z}` (`face-tracker.ts`,
`face-occluder.ts`). -/
structure Lm3 where
  x : ℝ
  y : ℝ
  z : ℝ

/-- A face's landmark array: total access function plus length (JS arrays
of 468 landmarks; every read the program performs is in bounds). -/
structure Face where
  get : Nat → Lm3
  length : Nat

/-- A 2D point in canvas pixel coordinates (`types.ts` `Point`). -/
structure Pt where
  x : ℝ
  y : ℝ

/-- The named landmark subset stored on a pose (`types.ts`
`FacePose.landmarks`). -/
structure NamedLandmarks where
  leftEye : Pt
  rightEye : Pt
  forehead : Pt
  chin : Pt
  leftTemple : Pt
  rightTemple : Pt

/-- A 3×3 rotation matrix (row-major fields); used to represent the
mirrored rotation `S·R·S` that the code converts to a quaternion/Euler. -/
structure Mat3 where
  m00 : ℝ
  m01 : ℝ
  m02 : ℝ
  m10 : ℝ
  m11 : ℝ
  m12 : ℝ
  m20 : ℝ
  m21 : ℝ
  m22 : ℝ

/-- `FacePose` (`types.ts`).  The 4×4 column-major matrix is kept as its
access function (the `Float32Array`).  `allLandmarks` is an `Option`
because the object literal returned by `computePoses` may omit it
(an omitted JS property reads as `undefined`). -/
structure FacePose where
  center : Pt
  faceCenter : Pt
  eyeDistance : ℝ
  faceHeight : ℝ
  faceWidth : ℝ
  matrix : Nat → ℝ
  roll : ℝ
  quaternion : Mat3
  landmarks : NamedLandmarks
  allLandmarks : Option Face

/-- Landmark indices from `types.ts` `FaceLandmark`. -/
def FaceLandmark.LEFT_EYE_OUTER : Nat := 263

def FaceLandmark.RIGHT_EYE_OUTER : Nat := 33

def FaceLandmark.NOSE_BRIDGE : Nat := 6

def FaceLandmark.FOREHEAD : Nat := 10

def FaceLandmark.CHIN : Nat := 152

def FaceLandmark.LEFT_TEMPLE : Nat := 454

def FaceLandmark.RIGHT_TEMPLE : Nat := 234

/-- A `FaceLandmarkerResult` as consumed by `computePoses`:
`faceLandmarks` plus the optional per-face transformation matrices
(each a `Float32Array` access function). -/
structure FLResult where
  faceLandmarks : List Face
  facialTransformationMatrixes : List (Nat → ℝ)

/-- The identity `Float32Array([1,0,0,0, 0,1,0,0, 0,0,1,0, 0,0,0,1])`
used when no transformation matrix is available. -/
def idMat4 : Nat → ℝ := fun i => if i = 0 ∨ i = 5 ∨ i = 10 ∨ i = 15 then 1 else 0

/-- JS `Math.atan2` on reals (signed-zero subtleties aside, which do not
arise in the claims). -/
noncomputable def atan2 (y x : ℝ) : ℝ :=
  if 0 < x then Real.arctan (y / x)
  else if x < 0 then
    (if 0 ≤ y then Real.arctan (y / x) + Real.pi else Real.arctan (y / x) - Real.pi)
  else
    (if 0 < y then Real.pi / 2 else if y < 0 then -(Real.pi / 2) else 0)

/-- `matrixToMirroredQuaternion` (`face-tracker.ts`): extract the 3×3
rotation block of the column-major matrix (`rot.set(m0,m4,m8; m1,m5,m9;
m2,m6,m10)`), then sandwich it as `S·R·S` with `S = diag(-1,1,1)`
(`rot.premultiply(_S).multiply(_S)`).  The quaternion is represented by
this rotation matrix. -/
def matrixToMirroredQuaternion (m : Nat → ℝ) : Mat3 :=
  { m00 := m 0, m01 := -(m 4), m02 := -(m 8)
    m10 := -(m 1), m11 := m 5, m12 := m 9
    m20 := -(m 2), m21 := m 6, m22 := m 10 }

/-- The body of the `map` callback in `computePoses` (`face-tracker.ts`
lines 64–137): one face's landmarks and transformation matrix to one
`FacePose`.  Note the returned record carries no `allLandmarks`
property — that field is `none`. -/
noncomputable def mkFacePose (lm : Face) (matrix : Nat → ℝ)
    (drawW drawH offsetX offsetY : ℝ) : FacePose :=
  let leftOuter := lm.get FaceLandmark.LEFT_EYE_OUTER
  let rightOuter := lm.get FaceLandmark.RIGHT_EYE_OUTER
  let noseBridge := lm.get FaceLandmark.NOSE_BRIDGE
  let forehead := lm.get FaceLandmark.FOREHEAD
  let chin := lm.get FaceLandmark.CHIN
  let leftTemple := lm.get FaceLandmark.LEFT_TEMPLE
  let rightTemple := lm.get FaceLandmark.RIGHT_TEMPLE
  -- Convert normalised coords → canvas pixels (mirrored X, cover-mapped)
  let lx := (1 - leftOuter.x) * drawW + offsetX
  let ly := leftOuter.y * drawH + offsetY
  let rx := (1 - rightOuter.x) * drawW + offsetX
  let ry := rightOuter.y * drawH + offsetY
  let dx := rx - lx
  let dy := ry - ly
  -- depth difference in pixels = dz * drawW
  let dz := (leftOuter.z - rightOuter.z) * drawW
  let eyeDistance := Real.sqrt (dx * dx + dy * dy + dz * dz)
  let roll := atan2 dy dx
  let center : Pt := ⟨(1 - noseBridge.x) * drawW + offsetX, noseBridge.y * drawH + offsetY⟩
  let fhX := (1 - forehead.x) * drawW + offsetX
  let fhY := forehead.y * drawH + offsetY
  let chX := (1 - chin.x) * drawW + offsetX
  let chY := chin.y * drawH + offsetY
  let fdz := (forehead.z - chin.z) * drawW
  let faceHeight := Real.sqrt ((chX - fhX) ^ 2 + (chY - fhY) ^ 2 + fdz * fdz)
  let faceCenter : Pt := ⟨(fhX + chX) / 2, (fhY + chY) / 2⟩
  let ltX := (1 - leftTemple.x) * drawW + offsetX
  let ltY := leftTemple.y * drawH + offsetY
  let rtX := (1 - rightTemple.x) * drawW + offsetX
  let rtY := rightTemple.y * drawH + offsetY
  let twDx := rtX - ltX
  let twDy := rtY - ltY
  let twDz := (leftTemple.z - rightTemple.z) * drawW
  let faceWidth := Real.sqrt (twDx * twDx + twDy * twDy + twDz * twDz)
  { center := center
    faceCenter := faceCenter
    eyeDistance := eyeDistance
    faceHeight := faceHeight
    faceWidth := faceWidth
    matrix := matrix
    roll := roll
    quaternion := matrixToMirroredQuaternion matrix
    landmarks :=
      { leftEye := ⟨lx, ly⟩, rightEye := ⟨rx, ry⟩
        forehead := ⟨fhX, fhY⟩, chin := ⟨chX, chY⟩
        leftTemple := ⟨ltX, ltY⟩, rightTemple := ⟨rtX, rtY⟩ }
    allLandmarks := none }

/-- `FaceTracker.computePoses` (`face-tracker.ts`): empty/missing
`faceLandmarks` yields `[]`; otherwise map each face (with its index,
used to pick the matching transformation matrix) to a pose. -/
noncomputable def computePoses (result : FLResult)
    (drawW drawH offsetX offsetY : ℝ) : List FacePose :=
  if result.faceLandmarks.length = 0 then []
  else
    result.faceLandmarks.enum.map fun p =>
      let matData := result.facialTransformationMatrixes.get? p.1
      mkFacePose p.2 (matData.getD idMat4) drawW drawH offsetX offsetY

/-- `FaceTracker.detect` (`face-tracker.ts`): the landmarker is `none`
until `init()` resolves; calling `detect` before that throws. -/
def FaceTracker.detect (landmarker : Option (ℚ → FLResult))
    (timestampMs : ℚ) : Except String FLResult :=
  match landmarker with
  | none => .error "FaceTracker not initialised — call init() first"
  | some f => .ok (f timestampMs)

/-- The visibility decision of `FaceOccluder.update` (`face-occluder.ts`
lines 211–216) for a mesh whose slot has a pose: the mesh is shown only
when `poses[i].allLandmarks` is present and non-empty. -/
def occluderMeshVisible (pose : FacePose) : Bool :=
  match pose.allLandmarks with
  | none => false
  | some lm => lm.length != 0

/-- `FRONT_CUTOFF` (`face-occluder.ts`). -/
noncomputable def FRONT_CUTOFF : ℝ := 3 / 10

/-- The yaw estimate of `FaceOccluder.update` (`face-occluder.ts` lines
222–231): temple-to-nose X asymmetry, `0` when the total distance is not
positive (so never a division by zero). -/
noncomputable def occluderYaw (lm : Face) : ℝ :=
  let noseX := (lm.get FaceLandmark.NOSE_BRIDGE).x
  let leftTempleX := (lm.get FaceLandmark.LEFT_TEMPLE).x
  let rightTempleX := (lm.get FaceLandmark.RIGHT_TEMPLE).x
  let distRight := leftTempleX - noseX
  let distLeft := noseX - rightTempleX
  let totalDist := distRight + distLeft
  if 0 < totalDist then (distLeft - distRight) / totalDist else 0

/-- The front-side cutoff fraction (`face-occluder.ts` line 235):
`min(yawMag * 3, 1) * FRONT_CUTOFF`. -/
noncomputable def cutoffFrac (yaw : ℝ) : ℝ :=
  min (|yaw| * 3) 1 * FRONT_CUTOFF

/-! ## Glasses renderer (`glasses-renderer.ts`) -/

/-- `GlassesParams` (`glasses-renderer.ts`).  The sliders only ever hold
rational values; `ℚ` keeps the state machine decidable. -/
structure GlassesParams where
  scale : ℚ
  offsetY : ℚ
  depth : ℚ
  baseRotX : ℚ
  baseRotY : ℚ
  baseRotZ : ℚ
  occluderZ : ℚ
  clipDepth : ℚ

/-- `DEFAULT_PARAMS` (`glasses-renderer.ts`). -/
def DEFAULT_PARAMS : GlassesParams :=
  { scale := 18/10, offsetY := 2/100, depth := -45/100
    baseRotX := -4, baseRotY := -2, baseRotZ := 0
    occluderZ := 0, clipDepth := 55/100 }

/-- A `Partial<GlassesParams>`: each property either absent or present. -/
structure PartialParams where
  scale : Option ℚ := none
  offsetY : Option ℚ := none
  depth : Option ℚ := none
  baseRotX : Option ℚ := none
  baseRotY : Option ℚ := none
  baseRotZ : Option ℚ := none
  occluderZ : Option ℚ := none
  clipDepth : Option ℚ := none

/-- A preloaded model (`PreloadedModel`).  The bounding-box measurement of
the pivot under a base rotation is abstracted as the function `measure`
(degrees ↦ width); `width` is the currently cached reference width. -/
structure PreloadedModel where
  measure : ℚ → ℚ → ℚ → ℚ
  width : ℚ

/-- `Transition` (`glasses-renderer.ts`).  Clones are identified by ids. -/
structure Transition where
  fromIndex : Int
  toIndex : Int
  direction : Int
  startTime : ℚ
  fromClones : List Nat
  toClones : List Nat
deriving DecidableEq

/-- The renderer state relevant to the claims: preloaded models, current
index, the active clone pool, the in-flight transition, the set of clone
ids attached to the scene, a fresh-id counter for `template.clone()`, and
the parameter bag. -/
structure RendererState where
  models : List PreloadedModel
  currentModelIndex : Int
  activeClones : List Nat
  transition : Option Transition
  scene : List Nat
  nextCloneId : Nat
  params : GlassesParams

/-- `TRANSITION_DURATION` (`glasses-renderer.ts`): 400 ms. -/
def TRANSITION_DURATION : ℚ := 400

/-- `ease` — easeInOutCubic (`glasses-renderer.ts`). -/
def ease (t : ℚ) : ℚ :=
  if t < 1/2 then 4 * t ^ 3 else 1 - (-2 * t + 2) ^ 3 / 2

/-- `finishTransition` (`glasses-renderer.ts`): remove the `fromClones`
from the scene, promote the `toClones` to active, clear the transition. -/
def finishTransition (s : RendererState) : RendererState :=
  match s.transition with
  | none => s
  | some tr =>
    { s with
      scene := s.scene.filter (fun c => ¬ c ∈ tr.fromClones)
      activeClones := tr.toClones
      transition := none }

/-- `selectModel` (`glasses-renderer.ts`): wrap the index, no-op when no
models or when re-selecting the current model while idle; finish any
in-flight transition instantly, then start the new one with the current
clones as `fromClones` and an empty `toClones` (populated during
render). -/
def selectModel (s : RendererState) (index direction : Int) (now : ℚ) :
    RendererState :=
  if s.models.length = 0 then s
  else
    let n : Int := s.models.length
    let newIndex := (index.tmod n + n).tmod n
    if newIndex = s.currentModelIndex ∧ s.transition = none then s
    else
      let s1 := finishTransition s
      let fromClones := s1.activeClones
      { s1 with
        activeClones := []
        currentModelIndex := newIndex
        transition := some
          { fromIndex := s1.currentModelIndex
            toIndex := newIndex
            direction := direction
            startTime := now
            fromClones := fromClones
            toClones := [] } }

/-- `ensureClones` (`glasses-renderer.ts`): grow a clone list to `count`
by cloning the template; each clone gets a fresh id and is added to the
scene.  Returns the grown list, the new scene and the id counter. -/
def ensureClones (clones : List Nat) (count : Nat) (scene : List Nat)
    (nextId : Nat) : List Nat × List Nat × Nat :=
  let fresh := (List.range (count - clones.length)).map (fun k => nextId + k)
  (clones ++ fresh, scene ++ fresh, nextId + (count - clones.length))

/-- The state-machine content of `render` (`glasses-renderer.ts` lines
542–585): compute the eased slide offsets, lazily populate the incoming
clone set, finish the transition at `t ≥ 1`.  Returns the new state and
the pair (outgoing offset, incoming offset). -/
def render (s : RendererState) (now canvasH : ℚ) (numPoses : Nat) :
    RendererState × ℚ × ℚ :=
  match s.transition with
  | some tr =>
    let elapsed := now - tr.startTime
    let t := min (elapsed / TRANSITION_DURATION) 1
    let e := ease t
    let dist := canvasH
    let outgoingYOffset := -(e * dist)
    let incomingYOffset := (1 - e) * dist
    let grown := ensureClones tr.toClones numPoses s.scene s.nextCloneId
    let s1 := { s with
      scene := grown.2.1
      nextCloneId := grown.2.2
      transition := some { tr with toClones := grown.1 } }
    let s2 := if 1 ≤ t then finishTransition s1 else s1
    (s2, outgoingYOffset, incomingYOffset)
  | none =>
    if 0 ≤ s.currentModelIndex then
      let grown := ensureClones s.activeClones numPoses s.scene s.nextCloneId
      ({ s with
          activeClones := grown.1
          scene := grown.2.1
          nextCloneId := grown.2.2 }, 0, 0)
    else (s, 0, 0)

/-- `applyBaseRotation` (`glasses-renderer.ts`): re-measure every model's
reference width under the current base rotation. -/
def applyBaseRotation (s : RendererState) : RendererState :=
  { s with models := s.models.map fun m =>
      { m with width := m.measure s.params.baseRotX s.params.baseRotY s.params.baseRotZ } }

/-- `Object.assign(this.params, params)` for a partial update. -/
def assignParams (p : GlassesParams) (q : PartialParams) : GlassesParams :=
  { scale := q.scale.getD p.scale
    offsetY := q.offsetY.getD p.offsetY
    depth := q.depth.getD p.depth
    baseRotX := q.baseRotX.getD p.baseRotX
    baseRotY := q.baseRotY.getD p.baseRotY
    baseRotZ := q.baseRotZ.getD p.baseRotZ
    occluderZ := q.occluderZ.getD p.occluderZ
    clipDepth := q.clipDepth.getD p.clipDepth }

/-- `updateParams` (`glasses-renderer.ts`): assign the partial bag; when
any base-rotation component was provided, re-derive every model's width
and destroy the active clones (removing them from the scene) so they are
re-cloned with the new rotation. -/
def updateParams (s : RendererState) (q : PartialParams) : RendererState :=
  let s1 := { s with params := assignParams s.params q }
  if q.baseRotX ≠ none ∨ q.baseRotY ≠ none ∨ q.baseRotZ ≠ none then
    let s2 := applyBaseRotation s1
    { s2 with
      scene := s2.scene.filter (fun c => ¬ c ∈ s2.activeClones)
      activeClones := [] }
  else s1

/-! ## Clip plane (`render`, `glasses-renderer.ts` lines 507–537) -/

/-- A THREE.js vector. -/
structure V3 where
  x : ℝ
  y : ℝ
  z : ℝ

/-- Dot product. -/
noncomputable def V3.dot (a b : V3) : ℝ := a.x * b.x + a.y * b.y + a.z * b.z

/-- A THREE.js plane: unit normal plus constant. -/
structure ClipPlane where
  normal : V3
  constant : ℝ

/-- `getFaceRotation` applied to the unit Z axis: the code extracts the
3×3 block of the column-major matrix, mirrors it (`S·R·S`), converts to
Euler angles and applies them to `(0,0,1)`; semantically that is the
third column of the mirrored rotation matrix. -/
noncomputable def faceForward (m : Nat → ℝ) : V3 :=
  ⟨-(m 8), m 9, m 10⟩

/-- The glasses anchor position of the clip-plane computation (`render`),
in orthographic space: nose-bridge center recentred on the canvas,
shifted by `eyeDistance * offsetY` vertically and by
`eyeDistance * depth` along the face forward vector. -/
noncomputable def glassesPos (params : GlassesParams) (pose : FacePose)
    (canvasW canvasH : ℝ) : V3 :=
  let normal := faceForward pose.matrix
  let yOff := pose.eyeDistance * (params.offsetY : ℝ)
  let gx := pose.center.x - canvasW / 2
  let gy := -(pose.center.y + yOff - canvasH / 2)
  let depthOff := pose.eyeDistance * (params.depth : ℝ)
  ⟨gx + normal.x * depthOff, gy + normal.y * depthOff, normal.z * depthOff⟩

/-- The clip-plane anchor (`planePoint` in `render`): the glasses position
displaced backward along the normal by `eyeDistance * clipDepth`. -/
noncomputable def clipAnchor (params : GlassesParams) (pose : FacePose)
    (canvasW canvasH : ℝ) : V3 :=
  let normal := faceForward pose.matrix
  let gp := glassesPos params pose canvasW canvasH
  let clipOffset := pose.eyeDistance * (params.clipDepth : ℝ)
  ⟨gp.x + normal.x * (-clipOffset), gp.y + normal.y * (-clipOffset),
    gp.z + normal.z * (-clipOffset)⟩

/-- The clip-plane update at the top of `render` (`glasses-renderer.ts`
lines 507–537): with a positive `clipDepth` and at least one pose the
plane is anchored behind the first face; otherwise it is pushed to the
no-op far plane `normal = (0,0,1)`, `constant = 99999`. -/
noncomputable def updateClipPlane (params : GlassesParams)
    (poses : List FacePose) (canvasW canvasH : ℝ) : ClipPlane :=
  match poses with
  | [] => ⟨⟨0, 0, 1⟩, 99999⟩
  | pose :: _ =>
    if 0 < params.clipDepth then
      let normal := faceForward pose.matrix
      let planePoint := clipAnchor params pose canvasW canvasH
      ⟨normal, -(planePoint.dot normal)⟩
    else ⟨⟨0, 0, 1⟩, 99999⟩

/-! ## Occluder triangulation (`face-occluder.ts`) -/

/-- A tessellation connection `{start, end}` (`.1` = start, `.2` = end). -/
abbrev Conn := Nat × Nat

/-- First-occurrence deduplication, the membership/iteration semantics of
a JS `Set` filled by insertion. -/
def dedupKeepFirst (l : List Nat) : List Nat :=
  l.foldl (fun acc x => if x ∈ acc then acc else acc ++ [x]) []

/-- The neighbour set `adj.get(v)` of `buildTriangles`: for each edge,
`start` gains `end` and `end` gains `start`, deduplicated as a `Set`.
A vertex on no edge has no map entry; that reads as the empty list. -/
def nbrs (edges : List Conn) (v : Nat) : List Nat :=
  dedupKeepFirst (edges.flatMap fun e =>
    (if e.1 = v then [e.2] else []) ++ (if e.2 = v then [e.1] else []))

/-- Number of keys of the adjacency map (`adj.size`): the number of
distinct edge endpoints. -/
def adjSize (connections : List Conn) : Nat :=
  (dedupKeepFirst ((connections.map Prod.fst) ++ (connections.map Prod.snd))).length

/-- The do-while walk of `orderedLoop` (`face-occluder.ts` lines
120–131), with explicit fuel.  Each iteration appends `cur`, steps to the
neighbour that is not `prev` (falling back to the first neighbour), and
continues while the next vertex differs from `first` and fewer than
`adj.size + 1` vertices have been appended.  With `fuel = adj.size + 1`
the fuel can never run out before the loop guard stops the walk, so this
is exactly the loop's semantics.  (`adj.get(cur)!` on a visited vertex is
never empty in well-formed inputs; the empty case here just ends the
walk.) -/
def orderedLoopGo (adj : Nat → List Nat) (sz : Nat) (first : Nat) :
    Nat → Int → Nat → List Nat → List Nat
  | 0, _, _, loop => loop
  | fuel + 1, prev, cur, loop =>
    let loop' := loop ++ [cur]
    let neighbors := adj cur
    let next := (neighbors.find? (fun (n : Nat) => ((n : Int) != prev))).getD
      (neighbors.headD first)
    if next ≠ first ∧ loop'.length < sz + 1 then
      orderedLoopGo adj sz first fuel (cur : Int) next loop'
    else loop'

/-- `orderedLoop` (`face-occluder.ts`): extract an ordered vertex loop
from a set of edges.  The local adjacency here is a plain list (`push`,
duplicates kept), unlike the `Set`-based adjacency of `buildTriangles`.
On `[]` the source would fault on `connections[0]`; the claims only
concern non-empty inputs. -/
def orderedLoop (connections : List Conn) : List Nat :=
  match connections with
  | [] => []
  | c0 :: _ =>
    let adj := fun v => connections.flatMap fun c =>
      (if c.1 = v then [c.2] else []) ++ (if c.2 = v then [c.1] else [])
    let sz := adjSize connections
    orderedLoopGo adj sz c0.1 (sz + 1) (-1) c0.1 []

/-- JS `Math.round`: floor of `q + 1/2`. -/
def jsRound (q : ℚ) : ℤ := ⌊q + 1/2⌋

/-- One arc of `buildTriangles`' "non-expandable" marking: the vertices
of `loop` within `±floor(round(len*frac)/2)` positions of `center`
(wrapping), or `[]` when `center` is not on the loop (`indexOf < 0`). -/
def arcVerts (loop : List Nat) (center : Nat) (frac : ℚ) : List Nat :=
  match loop.findIdx? (fun v => v = center) with
  | none => []
  | some cIdx =>
    let len : Int := loop.length
    let cnt := jsRound ((loop.length : ℚ) * frac)
    let half := cnt.toNat / 2
    (List.range (2 * half + 1)).map fun j =>
      let k : Int := (j : Int) - half
      loop.getD ((((cIdx + k).tmod len + len).tmod len).toNat) 0

/-- The `noExpandVerts` set of `buildTriangles`: the ~40% arc around the
forehead landmark plus the ~30% arc around the chin landmark. -/
def noExpandVerts (ovalLoop : List Nat) : List Nat :=
  arcVerts ovalLoop FaceLandmark.FOREHEAD (2/5) ++
    arcVerts ovalLoop FaceLandmark.CHIN (3/10)

/-- The `excludedVerts` set of `buildTriangles`: every oval vertex, plus
the neighbours of each oval vertex outside the forehead/chin arcs. -/
def excludedVerts (edges : List Conn) (ovalLoop : List Nat) : List Nat :=
  let noExp := noExpandVerts ovalLoop
  let ovalVerts := dedupKeepFirst ovalLoop
  ovalVerts ++
    (ovalVerts.filter (fun v => ¬ v ∈ noExp)).flatMap (nbrs edges)

/-- JS `[a, b, c].sort((x, y) => x - y)` for three numbers. -/
def sort3 (a b c : Nat) : Nat × Nat × Nat :=
  if a ≤ b then
    if b ≤ c then (a, b, c) else if a ≤ c then (a, c, b) else (c, a, b)
  else
    if a ≤ c then (b, a, c) else if b ≤ c then (b, c, a) else (c, b, a)

/-- The 3-clique phase of `buildTriangles` (`face-occluder.ts` lines
64–87): for each edge `(a,b)` and each `c` adjacent to `a`, keep the
triangle when `c ≠ b`, `c` is adjacent to `b`, and none of `a`, `b`, `c`
is excluded; deduplicate by the sorted-index key. -/
def cliquePhase (edges : List Conn) (ex : List Nat) :
    List (Nat × Nat × Nat) :=
  edges.foldl
    (fun acc e =>
      (nbrs edges e.1).foldl
        (fun acc c =>
          if c ≠ e.2 ∧ c ∈ nbrs edges e.2 then
            if e.1 ∈ ex ∨ e.2 ∈ ex ∨ c ∈ ex then acc
            else
              let tri := sort3 e.1 e.2 c
              if tri ∈ acc then acc else acc ++ [tri]
          else acc)
        acc)
    []

/-- The fan phase of `buildTriangles` (`face-occluder.ts` lines 89–103):
order each eye/lip loop and fan-triangulate it from its first vertex. -/
def fanPhase (connections : List Conn) : List Nat :=
  let ordered := orderedLoop connections
  if 3 ≤ ordered.length then
    (List.range (ordered.length - 2)).flatMap fun j =>
      [ordered.headD 0, ordered.getD (j + 1) 0, ordered.getD (j + 2) 0]
  else []

/-- The five inputs of `buildTriangles` (MediaPipe's tessellation and
loop edge lists, consumed as black-box constants). -/
structure TriInputs where
  tess : List Conn
  oval : List Conn
  leftEye : List Conn
  rightEye : List Conn
  lips : List Conn

/-- `buildTriangles` without the cache: clique triangles (flattened,
sorted indices) followed by the eye/lip fan triangles. -/
def buildTrianglesRaw (inp : TriInputs) : List Nat :=
  let ovalLoop := orderedLoop inp.oval
  let ex := excludedVerts inp.tess ovalLoop
  let tris := cliquePhase inp.tess ex
  tris.flatMap (fun t => [t.1, t.2.1, t.2.2]) ++
    (fanPhase inp.leftEye ++ (fanPhase inp.rightEye ++ fanPhase inp.lips))

/-- `buildTriangles` with its module-level cache (`cachedTriangles`):
returns the buffer and the new cache state. -/
def buildTriangles (cached : Option (List Nat)) (inp : TriInputs) :
    List Nat × Option (List Nat) :=
  match cached with
  | some ts => (ts, some ts)
  | none =>
    let ts := buildTrianglesRaw inp
    (ts, some ts)

/-! ## Concrete fixtures used by witnesses and counterexamples -/

/-- A landmark array whose eye-corner landmarks land at pixels
`(100, 200)` and `(220, 200)` under `drawW = 640`, `drawH = 480`,
`offsetX = offsetY = 0`. -/
noncomputable def sampleFace : Face :=
  ⟨fun i =>
    if i = FaceLandmark.LEFT_EYE_OUTER then ⟨27/32, 5/12, 0⟩
    else if i = FaceLandmark.RIGHT_EYE_OUTER then ⟨21/32, 5/12, 0⟩
    else ⟨0, 0, 0⟩, 468⟩

/-- A degenerate landmark array: all landmarks at the origin. -/
noncomputable def zeroFace : Face := ⟨fun _ => ⟨0, 0, 0⟩, 468⟩

/-- The pose the tracker computes for `zeroFace` (no transformation
matrix, so the identity is used). -/
noncomputable def zeroPose : FacePose := mkFacePose zeroFace idMat4 640 480 0 0

/-! ## C8 — no-op far plane -/

/-- C8: when `params.clipDepth = 0`, or no face was detected this frame,
`render` sets the clip plane to the no-op far plane — normal `(0,0,1)`
with sentinel constant `99999` — regardless of the pose. -/
theorem claim_C8_noop_far_plane (params : GlassesParams)
    (poses : List FacePose) (canvasW canvasH : ℝ)
    (h : params.clipDepth = 0 ∨ poses = []) :
    updateClipPlane params poses canvasW canvasH = ⟨⟨0, 0, 1⟩, 99999⟩ := by
  rcases h with h | h
  · cases poses with
    | nil => rfl
    | cons p ps => simp [updateClipPlane, h]
  · subst h; rfl

/-- Witness for C8 at a concrete pose and `clipDepth = 0`. -/
theorem claim_C8_witness :
    updateClipPlane { DEFAULT_PARAMS with clipDepth := 0 } [zeroPose] 640 480 =
      ⟨⟨0, 0, 1⟩, 99999⟩ :=
  claim_C8_noop_far_plane _ _ _ _ (Or.inl rfl)

/-! ## C4 — clip-plane identity -/

/-- C4 (amended): for every pose list with at least one pose and every
`clipDepth > 0`, the clip plane written by `render` satisfies
`dot(anchor, normal) + constant == 0` exactly, with `normal` the first
face's forward vector and `anchor` the placed glasses position displaced
backward along the normal by `eyeDistance * clipDepth`; moreover the
plane's normal is that forward vector. -/
theorem claim_C4_clip_plane_identity (params : GlassesParams)
    (pose : FacePose) (rest : List FacePose) (canvasW canvasH : ℝ)
    (h : 0 < params.clipDepth) :
    (clipAnchor params pose canvasW canvasH).dot (faceForward pose.matrix) +
        (updateClipPlane params (pose :: rest) canvasW canvasH).constant = 0 ∧
      (updateClipPlane params (pose :: rest) canvasW canvasH).normal =
        faceForward pose.matrix := by
  constructor
  · simp only [updateClipPlane, if_pos h]
    ring
  · simp only [updateClipPlane, if_pos h]

/-- Counterexample to C4 as stated: at `clipDepth = 0` (allowed by the
claim's `clipDepth >= 0`) the code takes the sentinel branch, and the
identity `dot(anchor, normal) + constant == 0` fails at this concrete
input (the constant is `99999` while `dot(anchor, normal) = 0`). -/
theorem claim_C4_counterexample :
    updateClipPlane { DEFAULT_PARAMS with clipDepth := 0 } [zeroPose] 640 480 =
        ⟨⟨0, 0, 1⟩, 99999⟩ ∧
      (clipAnchor { DEFAULT_PARAMS with clipDepth := 0 } zeroPose 640 480).dot
          (faceForward zeroPose.matrix) +
        (updateClipPlane { DEFAULT_PARAMS with clipDepth := 0 } [zeroPose] 640 480).constant
        ≠ 0 := by
  constructor
  · simp [updateClipPlane]
  · have hz : zeroPose.eyeDistance = 0 := by
      simp [zeroPose, mkFacePose, zeroFace, Real.sqrt_eq_zero']
    have hfwd : faceForward zeroPose.matrix = ⟨0, 0, 1⟩ := by
      simp [zeroPose, mkFacePose, faceForward, idMat4]
    have hdot :
        (clipAnchor { DEFAULT_PARAMS with clipDepth := 0 } zeroPose 640 480).dot
          (faceForward zeroPose.matrix) = 0 := by
      simp [clipAnchor, glassesPos, V3.dot, hfwd, hz]
    rw [hdot]
    simp [updateClipPlane]

/-- Witness for the amended C4 at a concrete pose and the default
parameters (`clipDepth = 0.55 > 0`). -/
theorem claim_C4_witness :
    (clipAnchor DEFAULT_PARAMS zeroPose 640 480).dot (faceForward zeroPose.matrix) +
        (updateClipPlane DEFAULT_PARAMS [zeroPose] 640 480).constant = 0 ∧
      (updateClipPlane DEFAULT_PARAMS [zeroPose] 640 480).normal =
        faceForward zeroPose.matrix :=
  claim_C4_clip_plane_identity DEFAULT_PARAMS zeroPose [] 640 480 (by norm_num [DEFAULT_PARAMS])

/-! ## C1 — the `allLandmarks` field -/

/-- C1 (code bug evidence): at a concrete detection result with one face,
the pose returned by `computePoses` carries no `allLandmarks`
(the object literal at the end of `computePoses` omits the field that
`types.ts` declares and documents), and `FaceOccluder.update`, which
reads exactly `poses[i].allLandmarks`, therefore hides the occluder mesh
instead of deforming it from the full mapped landmark sequence. -/
theorem claim_C1_allLandmarks_missing :
    (computePoses ⟨[sampleFace], []⟩ 640 480 0 0).map (fun p => p.allLandmarks) =
        [none] ∧
      (computePoses ⟨[sampleFace], []⟩ 640 480 0 0).map occluderMeshVisible =
        [false] := by
  constructor <;>
    simp [computePoses, mkFacePose, occluderMeshVisible, List.enum, List.enumFrom]

/-! ## C9 — fail-fast detect, empty results -/

/-- C9: `FaceTracker.detect` before `init()` has completed raises an
error, while `computePoses` on a result with no face landmarks returns
the empty pose list rather than raising. -/
theorem claim_C9_fail_fast_empty (ts : ℚ) (result : FLResult)
    (drawW drawH offsetX offsetY : ℝ)
    (hempty : result.faceLandmarks = []) :
    FaceTracker.detect none ts =
        .error "FaceTracker not initialised — call init() first" ∧
      computePoses result drawW drawH offsetX offsetY = [] := by
  constructor
  · rfl
  · simp [computePoses, hempty]

/-- Witness for C9 at a concrete timestamp and the empty result. -/
theorem claim_C9_witness :
    FaceTracker.detect none 7 =
        .error "FaceTracker not initialised — call init() first" ∧
      computePoses ⟨[], []⟩ 640 480 0 0 = [] :=
  claim_C9_fail_fast_empty 7 ⟨[], []⟩ 640 480 0 0 rfl

/-! ## C5 — yaw and front-side cutoff -/

/-- C5: the occluder's yaw is
`(distLeft - distRight) / (distLeft + distRight)` from the
nose-bridge-to-temple X distances, and is `0` (never a division by zero)
whenever the total distance is zero; `distLeft = 30` and `distRight = 10`
give `yaw = 1/2` and a cutoff fraction `min(1/2 * 3, 1) * 3/10 = 3/10`. -/
theorem claim_C5_yaw_cutoff (lm lm2 : Face)
    (h0 : (lm.get FaceLandmark.LEFT_TEMPLE).x -
      (lm.get FaceLandmark.RIGHT_TEMPLE).x = 0)
    (hL : (lm2.get FaceLandmark.NOSE_BRIDGE).x -
      (lm2.get FaceLandmark.RIGHT_TEMPLE).x = 30)
    (hR : (lm2.get FaceLandmark.LEFT_TEMPLE).x -
      (lm2.get FaceLandmark.NOSE_BRIDGE).x = 10) :
    occluderYaw lm = 0 ∧ occluderYaw lm2 = 1/2 ∧
      cutoffFrac (occluderYaw lm2) = 3/10 := by
  have hy2 : occluderYaw lm2 = 1/2 := by
    unfold occluderYaw
    rw [if_pos (by linarith)]
    rw [div_eq_iff (by linarith)]
    linarith
  refine ⟨?_, hy2, ?_⟩
  · unfold occluderYaw
    rw [if_neg (by intro hcon; linarith)]
  · rw [hy2, cutoffFrac, FRONT_CUTOFF]
    rw [abs_of_pos (by norm_num : (0:ℝ) < 1/2)]
    rw [show (1/2 : ℝ) * 3 = 3/2 by norm_num]
    rw [min_eq_right (by norm_num : (1:ℝ) ≤ 3/2)]
    norm_num

/-- A face whose temple X coordinates coincide (total distance zero). -/
noncomputable def flatFace : Face := ⟨fun _ => ⟨5, 0, 0⟩, 468⟩

/-- A face with `distLeft = 30` (nose at 30, right temple at 0) and
`distRight = 10` (left temple at 40). -/
noncomputable def turnedFace : Face :=
  ⟨fun i =>
    if i = FaceLandmark.NOSE_BRIDGE then ⟨30, 0, 0⟩
    else if i = FaceLandmark.LEFT_TEMPLE then ⟨40, 0, 0⟩
    else ⟨0, 0, 0⟩, 468⟩

/-- Witness for C5 at the two concrete faces. -/
theorem claim_C5_witness :
    occluderYaw flatFace = 0 ∧ occluderYaw turnedFace = 1/2 ∧
      cutoffFrac (occluderYaw turnedFace) = 3/10 :=
  claim_C5_yaw_cutoff flatFace turnedFace
    (by simp [flatFace])
    (by norm_num [turnedFace, FaceLandmark.NOSE_BRIDGE, FaceLandmark.RIGHT_TEMPLE,
      FaceLandmark.LEFT_TEMPLE])
    (by norm_num [turnedFace, FaceLandmark.NOSE_BRIDGE, FaceLandmark.LEFT_TEMPLE,
      FaceLandmark.RIGHT_TEMPLE])

/-! ## C10 — termination bound of the loop walk -/

/-- The walk of `orderedLoopGo` appends at most until the guard
`loop.length < sz + 1` fails: the result never exceeds
`max (loop.length + 1) (sz + 1)` vertices. -/
theorem orderedLoopGo_length_le (adj : Nat → List Nat) (sz first : Nat) :
    ∀ (fuel : Nat) (prev : Int) (cur : Nat) (loop : List Nat),
      (orderedLoopGo adj sz first fuel prev cur loop).length ≤
        max (loop.length + 1) (sz + 1) := by
  intro fuel
  induction fuel with
  | zero =>
    intro prev cur loop
    simp only [orderedLoopGo]
    exact le_max_of_le_left (Nat.le_succ _)
  | succ n ih =>
    intro prev cur loop
    simp only [orderedLoopGo]
    split
    · next hcond =>
      refine le_trans (ih _ _ _) ?_
      have hlen : (loop ++ [cur]).length < sz + 1 := hcond.2
      simp only [List.length_append, List.length_singleton] at hlen ⊢
      omega
    · simp only [List.length_append, List.length_singleton]
      omega

/-- C10: `orderedLoop` terminates on every non-empty edge list — even
when the input is not a closed 2-regular loop — because the walk appends
at most `adj.size + 1` vertices before the loop guard (or a return to the
start vertex) stops it.  The embedding is a total structurally recursive
function; the claim's resource content is the length bound. -/
theorem claim_C10_orderedLoop_bound (connections : List Conn)
    (h : connections ≠ []) :
    (orderedLoop connections).length ≤ adjSize connections + 1 := by
  cases connections with
  | nil => exact absurd rfl h
  | cons c0 cs =>
    simp only [orderedLoop]
    refine le_trans (orderedLoopGo_length_le _ _ _ _ _ _ _) ?_
    simp

/-- Witness for C10 on a concrete edge list (a triangle loop). -/
theorem claim_C10_witness :
    ([((0:Nat), (1:Nat)), (1, 2), (2, 0)] : List Conn) ≠ [] ∧
      (orderedLoop [((0:Nat), (1:Nat)), (1, 2), (2, 0)]).length ≤
        adjSize [((0:Nat), (1:Nat)), (1, 2), (2, 0)] + 1 :=
  ⟨by decide, claim_C10_orderedLoop_bound [(0, 1), (1, 2), (2, 0)] (by decide)⟩

/-! ## C7 — base-rotation invalidation -/

/-- C7: any `updateParams` call that changes `baseRotX`, `baseRotY` or
`baseRotZ` (a change requires the property to be provided) re-derives
every preloaded model's reference width under the new base rotation and
discards all pooled instances — the active clone pool is emptied and its
clones leave the scene, so geometry cloned under the old rotation is
never rendered afterwards. -/
theorem claim_C7_base_rotation_invalidation (s : RendererState)
    (q : PartialParams)
    (hchange :
      (q.baseRotX ≠ none ∧ q.baseRotX ≠ some s.params.baseRotX) ∨
      (q.baseRotY ≠ none ∧ q.baseRotY ≠ some s.params.baseRotY) ∨
      (q.baseRotZ ≠ none ∧ q.baseRotZ ≠ some s.params.baseRotZ)) :
    (∀ m ∈ (updateParams s q).models,
        m.width = m.measure (updateParams s q).params.baseRotX
          (updateParams s q).params.baseRotY
          (updateParams s q).params.baseRotZ) ∧
      (updateParams s q).activeClones = [] ∧
      (∀ c ∈ s.activeClones, c ∉ (updateParams s q).scene) := by
  have hprov : q.baseRotX ≠ none ∨ q.baseRotY ≠ none ∨ q.baseRotZ ≠ none := by
    rcases hchange with ⟨h, _⟩ | ⟨h, _⟩ | ⟨h, _⟩
    · exact Or.inl h
    · exact Or.inr (Or.inl h)
    · exact Or.inr (Or.inr h)
  simp only [updateParams, if_pos hprov]
  refine ⟨?_, by trivial, ?_⟩
  · intro m hm
    simp only [applyBaseRotation, List.mem_map] at hm
    obtain ⟨m0, _, rfl⟩ := hm
    rfl
  · intro c hc
    simp only [applyBaseRotation, List.mem_filter]
    intro hmem
    have := hmem.2
    simp only [decide_eq_true_eq] at this
    exact this hc

/-- A concrete renderer state for the C7 witness. -/
def c7State : RendererState :=
  { models := [⟨fun x y z => x + y + z, 99⟩]
    currentModelIndex := 0
    activeClones := [7]
    transition := none
    scene := [7, 8]
    nextCloneId := 9
    params := DEFAULT_PARAMS }

/-- The C7 witness update: provides `baseRotX = 5` (changed from the
default `-4`). -/
def c7Update : PartialParams := { baseRotX := some 5 }

/-- Witness for C7: widths are re-measured under `(5, -2, 0)` and the
pooled clone `7` is discarded from the scene. -/
theorem claim_C7_witness :
    (updateParams c7State c7Update).activeClones = [] ∧
      ((updateParams c7State c7Update).models.map (fun m => m.width)) = [3] ∧
      (updateParams c7State c7Update).scene = [8] :=
  ⟨(claim_C7_base_rotation_invalidation c7State c7Update
      (Or.inl ⟨by decide, by decide⟩)).2.1,
    by
      norm_num [updateParams, applyBaseRotation, assignParams, c7State,
        c7Update, DEFAULT_PARAMS]
      rw [if_neg (Option.some_ne_none (5 : ℚ))]
      norm_num,
    by decide⟩

/-! ## C2 — asset-switch transition state machine -/

/-- C2: calling `selectModel` while a transition is in flight finalizes
it immediately — its `fromClones` leave the scene and its `toClones` are
promoted (becoming the new transition's `fromClones`) — so every clone
still in the scene belongs to the (at most two) generations of the single
new transition; and once elapsed time reaches `TRANSITION_DURATION` the
per-frame update yields outgoing offset `-canvasH`, incoming offset `0`,
and clears the transition (back to `Idle`).  The scene-inventory
hypothesis is the state invariant that holds while a transition is in
flight: `selectModel` empties the active pool into the transition and
`render` only ever adds clones to the transition's `toClones`. -/
theorem claim_C2_transition_state_machine (s : RendererState)
    (tr : Transition) (index direction : Int) (now now2 canvasH : ℚ)
    (numPoses : Nat)
    (htr : s.transition = some tr)
    (hmodels : ¬ s.models.length = 0)
    (hscene : ∀ c ∈ s.scene, c ∈ tr.fromClones ∨ c ∈ tr.toClones)
    (hdone : TRANSITION_DURATION ≤ now2 - tr.startTime) :
    (∃ tr', (selectModel s index direction now).transition = some tr' ∧
        tr'.fromClones = tr.toClones ∧ tr'.toClones = [] ∧
        (selectModel s index direction now).activeClones = [] ∧
        (∀ c ∈ tr.fromClones, c ∉ (selectModel s index direction now).scene) ∧
        (∀ c ∈ (selectModel s index direction now).scene,
          c ∈ tr'.fromClones ∨ c ∈ tr'.toClones)) ∧
      ((render s now2 canvasH numPoses).2.1 = -canvasH ∧
        (render s now2 canvasH numPoses).2.2 = 0 ∧
        (render s now2 canvasH numPoses).1.transition = none) := by
  constructor
  · have hfalse : (some tr = none) = False := by simp
    simp only [selectModel, if_neg hmodels, finishTransition, htr, hfalse,
      and_false, if_false]
    refine ⟨(⟨s.currentModelIndex,
        (index.tmod (s.models.length : Int) +
          (s.models.length : Int)).tmod (s.models.length : Int),
        direction, now, tr.toClones, []⟩ : Transition), ?_, ?_, ?_, ?_, ?_, ?_⟩
    any_goals trivial
    · intro c hc hmem
      rw [List.mem_filter] at hmem
      have hdec := hmem.2
      simp only [decide_eq_true_eq] at hdec
      exact hdec hc
    · intro c hmem
      rw [List.mem_filter] at hmem
      have hnin := hmem.2
      simp only [decide_eq_true_eq] at hnin
      rcases hscene c hmem.1 with h | h
      · exact absurd h hnin
      · exact Or.inl h
  · have ht : min ((now2 - tr.startTime) / TRANSITION_DURATION) 1 = 1 := by
      rw [min_eq_right]
      rw [le_div_iff₀ (by norm_num [TRANSITION_DURATION])]
      rw [TRANSITION_DURATION] at hdone
      simp only [TRANSITION_DURATION]
      linarith
    have he : ease 1 = 1 := by norm_num [ease]
    simp only [render, htr, ht, he]
    refine ⟨by ring, by ring, ?_⟩
    rw [if_pos le_rfl]
    simp [finishTransition]

/-- A concrete in-flight transition for the C2 witness: slide from model
`-1` (none) to model `0`, started at `t = 0`, with outgoing clones
`[1, 2]` and incoming clones `[3]`. -/
def c2Transition : Transition := ⟨-1, 0, 1, 0, [1, 2], [3]⟩

/-- A concrete renderer state mid-transition for the C2 witness. -/
def c2State : RendererState :=
  { models := [⟨fun x y z => x + y + z, 1⟩]
    currentModelIndex := 0
    activeClones := []
    transition := some c2Transition
    scene := [1, 2, 3]
    nextCloneId := 4
    params := DEFAULT_PARAMS }

/-- Witness for C2: at `now = 400 = durationMs` past the start the
offsets are `(-500, 0)` for `canvasH = 500` and the transition clears;
`selectModel` mid-flight drops the outgoing clones `[1, 2]` from the
scene and empties the active pool. -/
theorem claim_C2_witness :
    (render c2State 400 500 1).2.1 = -500 ∧
      (render c2State 400 500 1).2.2 = 0 ∧
      (render c2State 400 500 1).1.transition = none ∧
      (selectModel c2State 1 1 50).scene = [3] ∧
      (selectModel c2State 1 1 50).activeClones = [] :=
  have h := claim_C2_transition_state_machine c2State c2Transition 1 1 50 400
    500 1 rfl (by decide) (by decide)
    (by norm_num [TRANSITION_DURATION, c2Transition])
  ⟨h.2.1, h.2.2.1, h.2.2.2, by decide, by decide⟩

/-! ## C3 — triangulation: cache idempotence and exclusion -/

/-- A `foldl` whose step only ever appends elements satisfying `Q`
produces a list of elements satisfying `Q`. -/
theorem foldl_mem_invariant {α β : Type} (Q : β → Prop)
    (f : List β → α → List β)
    (hf : ∀ acc a t, (∀ u ∈ acc, Q u) → t ∈ f acc a → Q t) :
    ∀ (l : List α) (acc : List β), (∀ u ∈ acc, Q u) →
      ∀ t ∈ l.foldl f acc, Q t := by
  intro l
  induction l with
  | nil => intro acc h t ht; exact h t ht
  | cons a l ih =>
    intro acc h t ht
    exact ih (f acc a) (fun u hu => hf acc a u h hu) t ht

/-- Every component of `sort3 a b c` is one of `a`, `b`, `c`. -/
theorem sort3_components (a b c : Nat) :
    ((sort3 a b c).1 = a ∨ (sort3 a b c).1 = b ∨ (sort3 a b c).1 = c) ∧
      ((sort3 a b c).2.1 = a ∨ (sort3 a b c).2.1 = b ∨ (sort3 a b c).2.1 = c) ∧
      ((sort3 a b c).2.2 = a ∨ (sort3 a b c).2.2 = b ∨ (sort3 a b c).2.2 = c) := by
  unfold sort3
  split_ifs <;> simp

/-- Every triangle kept by the clique phase avoids the exclusion set
(the filter in `buildTriangles` discards any candidate touching it). -/
theorem cliquePhase_not_excluded (edges : List Conn) (ex : List Nat) :
    ∀ t ∈ cliquePhase edges ex, t.1 ∉ ex ∧ t.2.1 ∉ ex ∧ t.2.2 ∉ ex := by
  unfold cliquePhase
  refine foldl_mem_invariant _ _ ?_ edges []
    (fun u hu => absurd hu (List.not_mem_nil u))
  intro acc e t hacc ht
  revert ht
  refine foldl_mem_invariant _ _ ?_ (nbrs edges e.1) acc hacc t
  intro acc2 c u hacc2 hu
  by_cases hcb : c ≠ e.2 ∧ c ∈ nbrs edges e.2
  · rw [if_pos hcb] at hu
    by_cases hex : e.1 ∈ ex ∨ e.2 ∈ ex ∨ c ∈ ex
    · rw [if_pos hex] at hu
      exact hacc2 u hu
    · rw [if_neg hex] at hu
      push_neg at hex
      by_cases hdup : sort3 e.1 e.2 c ∈ acc2
      · rw [if_pos hdup] at hu
        exact hacc2 u hu
      · rw [if_neg hdup] at hu
        rw [List.mem_append] at hu
        rcases hu with hu | hu
        · exact hacc2 u hu
        · rw [List.mem_singleton] at hu
          subst hu
          obtain ⟨h1, h2, h3⟩ := sort3_components e.1 e.2 c
          refine ⟨?_, ?_, ?_⟩
          · rcases h1 with h | h | h <;> rw [h] <;> tauto
          · rcases h2 with h | h | h <;> rw [h] <;> tauto
          · rcases h3 with h | h | h <;> rw [h] <;> tauto
  · rw [if_neg hcb] at hu
    exact hacc2 u hu

/-- An in-bounds `getD` read is a member of the list. -/
theorem getD_mem_of_lt {l : List Nat} {n : Nat} (d : Nat)
    (h : n < l.length) : l.getD n d ∈ l := by
  induction l generalizing n with
  | nil => simp at h
  | cons a t ih =>
    cases n with
    | zero => simp [List.getD]
    | succ m =>
      simp only [List.getD_cons_succ]
      exact List.mem_cons_of_mem a (ih (Nat.lt_of_succ_lt_succ h))

/-- Every index emitted by the fan phase lies on the ordered loop it
fan-triangulates. -/
theorem fanPhase_mem (connections : List Conn) :
    ∀ i ∈ fanPhase connections, i ∈ orderedLoop connections := by
  intro i hi
  unfold fanPhase at hi
  by_cases h3 : 3 ≤ (orderedLoop connections).length
  · rw [if_pos h3] at hi
    rw [List.mem_flatMap] at hi
    obtain ⟨j, hj, hmem⟩ := hi
    rw [List.mem_range] at hj
    have hj1 : j + 1 < (orderedLoop connections).length := by omega
    have hj2 : j + 2 < (orderedLoop connections).length := by omega
    have hhead : (orderedLoop connections).headD 0 ∈ orderedLoop connections := by
      cases hl : orderedLoop connections with
      | nil => rw [hl] at h3; simp at h3
      | cons a t => simp
    simp only [List.mem_cons, List.not_mem_nil, or_false] at hmem
    rcases hmem with h | h | h
    · rw [h]; exact hhead
    · rw [h]; exact getD_mem_of_lt 0 hj1
    · rw [h]; exact getD_mem_of_lt 0 hj2
  · rw [if_neg h3] at hi
    exact absurd hi (List.not_mem_nil i)

/-- C3: the triangulation builder is idempotent — a second call returns
the bit-identical cached buffer — and, provided the eye/lip loops are
disjoint from the oval exclusion set (true of the MediaPipe face
topology, whose eye and lip loops lie strictly inside the face oval), no
vertex index of any triangle in the produced buffer belongs to the
exclusion set computed from the face-oval loop. -/
theorem claim_C3_triangulation (inp : TriInputs)
    (hfan : ∀ v ∈ orderedLoop inp.leftEye ++
        (orderedLoop inp.rightEye ++ orderedLoop inp.lips),
      v ∉ excludedVerts inp.tess (orderedLoop inp.oval)) :
    (buildTriangles (buildTriangles none inp).2 inp).1 =
        (buildTriangles none inp).1 ∧
      ∀ i ∈ (buildTriangles none inp).1,
        i ∉ excludedVerts inp.tess (orderedLoop inp.oval) := by
  constructor
  · rfl
  · intro i hi
    have hi' : i ∈ buildTrianglesRaw inp := hi
    unfold buildTrianglesRaw at hi'
    rw [List.mem_append] at hi'
    rcases hi' with hi' | hi'
    · rw [List.mem_flatMap] at hi'
      obtain ⟨t, ht, hmem⟩ := hi'
      have hq := cliquePhase_not_excluded inp.tess _ t ht
      simp only [List.mem_cons, List.not_mem_nil, or_false] at hmem
      rcases hmem with h | h | h
      · rw [h]; exact hq.1
      · rw [h]; exact hq.2.1
      · rw [h]; exact hq.2.2
    · rw [List.mem_append] at hi'
      rcases hi' with hi' | hi'
      · exact hfan i (List.mem_append_left _ (fanPhase_mem _ i hi'))
      · rw [List.mem_append] at hi'
        rcases hi' with hi' | hi'
        · exact hfan i (List.mem_append_right _
            (List.mem_append_left _ (fanPhase_mem _ i hi')))
        · exact hfan i (List.mem_append_right _
            (List.mem_append_right _ (fanPhase_mem _ i hi')))

/-- A small concrete topology for the C3 witness: a square oval, one
interior triangle, and triangular eye/lip loops away from the oval. -/
def c3Inputs : TriInputs :=
  { tess := [(0, 1), (1, 2), (2, 3), (3, 0), (20, 21), (21, 22), (22, 20)]
    oval := [(0, 1), (1, 2), (2, 3), (3, 0)]
    leftEye := [(30, 31), (31, 32), (32, 30)]
    rightEye := [(40, 41), (41, 42), (42, 40)]
    lips := [(50, 51), (51, 52), (52, 50)] }

/-- Witness for C3: on the concrete topology the second (cached) call
returns the first call's buffer, and the buffer contains exactly the
interior triangle and the three fan triangles, none touching the
exclusion set. -/
theorem claim_C3_witness :
    (buildTriangles (buildTriangles none c3Inputs).2 c3Inputs).1 =
        (buildTriangles none c3Inputs).1 ∧
      (buildTriangles none c3Inputs).1 =
        [20, 21, 22, 30, 31, 32, 40, 41, 42, 50, 51, 52] :=
  ⟨(claim_C3_triangulation c3Inputs (by decide)).1, by decide⟩

/-! ## C6 — coordinate mapping and eye distance -/

/-- C6: `computePoses` maps each landmark it reads to pixel position
`((1 - nx) * drawW + offsetX, ny * drawH + offsetY)` and takes
`eyeDistance` as the 3D Euclidean norm of the eye-corner difference
whose depth component is the depth difference scaled by `drawW`; a face
whose eye landmarks land at pixels `(100, 200)` and `(220, 200)` with
depth `0` yields `eyeDistance = 120` and `roll = 0`. -/
theorem claim_C6_mapping_eye_distance (result : FLResult) (face : Face)
    (drawW drawH offsetX offsetY : ℝ)
    (hfaces : result.faceLandmarks = [face]) :
    ∃ pose, computePoses result drawW drawH offsetX offsetY = [pose] ∧
      pose.landmarks.leftEye =
        ⟨(1 - (face.get FaceLandmark.LEFT_EYE_OUTER).x) * drawW + offsetX,
          (face.get FaceLandmark.LEFT_EYE_OUTER).y * drawH + offsetY⟩ ∧
      pose.landmarks.rightEye =
        ⟨(1 - (face.get FaceLandmark.RIGHT_EYE_OUTER).x) * drawW + offsetX,
          (face.get FaceLandmark.RIGHT_EYE_OUTER).y * drawH + offsetY⟩ ∧
      pose.center =
        ⟨(1 - (face.get FaceLandmark.NOSE_BRIDGE).x) * drawW + offsetX,
          (face.get FaceLandmark.NOSE_BRIDGE).y * drawH + offsetY⟩ ∧
      pose.eyeDistance = Real.sqrt
        ((pose.landmarks.rightEye.x - pose.landmarks.leftEye.x) ^ 2 +
          (pose.landmarks.rightEye.y - pose.landmarks.leftEye.y) ^ 2 +
          (((face.get FaceLandmark.LEFT_EYE_OUTER).z -
            (face.get FaceLandmark.RIGHT_EYE_OUTER).z) * drawW) ^ 2) ∧
      (pose.landmarks.leftEye = ⟨100, 200⟩ →
        pose.landmarks.rightEye = ⟨220, 200⟩ →
        (face.get FaceLandmark.LEFT_EYE_OUTER).z = 0 →
        (face.get FaceLandmark.RIGHT_EYE_OUTER).z = 0 →
        pose.eyeDistance = 120 ∧ pose.roll = 0) := by
  refine ⟨mkFacePose face
    ((result.facialTransformationMatrixes.get? 0).getD idMat4)
    drawW drawH offsetX offsetY, ?_, rfl, rfl, rfl, ?_, ?_⟩
  · simp [computePoses, hfaces, List.enum, List.enumFrom]
  · simp only [mkFacePose]
    congr 1
    ring
  · intro h1 h2 h3 h4
    have hlx : (1 - (face.get FaceLandmark.LEFT_EYE_OUTER).x) * drawW +
        offsetX = 100 := congrArg Pt.x h1
    have hly : (face.get FaceLandmark.LEFT_EYE_OUTER).y * drawH +
        offsetY = 200 := congrArg Pt.y h1
    have hrx : (1 - (face.get FaceLandmark.RIGHT_EYE_OUTER).x) * drawW +
        offsetX = 220 := congrArg Pt.x h2
    have hry : (face.get FaceLandmark.RIGHT_EYE_OUTER).y * drawH +
        offsetY = 200 := congrArg Pt.y h2
    constructor
    · simp only [mkFacePose]
      rw [hlx, hly, hrx, hry, h3, h4]
      rw [show ((220:ℝ) - 100) * (220 - 100) + (200 - 200) * (200 - 200) +
        ((0:ℝ) - 0) * drawW * (((0:ℝ) - 0) * drawW) = 120 ^ 2 by ring]
      exact Real.sqrt_sq (by norm_num)
    · simp only [mkFacePose]
      rw [hlx, hly, hrx, hry]
      rw [show (200:ℝ) - 200 = 0 by norm_num,
        show (220:ℝ) - 100 = 120 by norm_num]
      rw [atan2, if_pos (by norm_num : (0:ℝ) < 120)]
      norm_num

/-- Witness for C6: `sampleFace` under `drawW = 640`, `drawH = 480`,
zero offsets puts the eye corners at pixels `(100, 200)` and
`(220, 200)` with depth `0`, so the computed pose has
`eyeDistance = 120` and `roll = 0`. -/
theorem claim_C6_witness :
    ∃ pose, computePoses ⟨[sampleFace], []⟩ 640 480 0 0 = [pose] ∧
      pose.eyeDistance = 120 ∧ pose.roll = 0 := by
  obtain ⟨pose, heq, hle, hre, _, _, hscen⟩ :=
    claim_C6_mapping_eye_distance ⟨[sampleFace], []⟩ sampleFace 640 480 0 0 rfl
  refine ⟨pose, heq, ?_⟩
  have h1 : pose.landmarks.leftEye = ⟨100, 200⟩ := by
    rw [hle]
    simp only [sampleFace, FaceLandmark.LEFT_EYE_OUTER, Pt.mk.injEq]
    norm_num
  have h2 : pose.landmarks.rightEye = ⟨220, 200⟩ := by
    rw [hre]
    simp only [sampleFace, FaceLandmark.LEFT_EYE_OUTER,
      FaceLandmark.RIGHT_EYE_OUTER, Pt.mk.injEq]
    norm_num
  have h3 : (sampleFace.get FaceLandmark.LEFT_EYE_OUTER).z = 0 := by
    simp [sampleFace, FaceLandmark.LEFT_EYE_OUTER]
  have h4 : (sampleFace.get FaceLandmark.RIGHT_EYE_OUTER).z = 0 := by
    simp [sampleFace, FaceLandmark.LEFT_EYE_OUTER, FaceLandmark.RIGHT_EYE_OUTER]
  exact hscen h1 h2 h3 h4
